import Mathlib

/-
Verification of the balance-accounting core of the mile-api backend.

The embedding models the Balance Store (CashBalance / FloatBalance rows),
the Movement Ledger (Transaction / FloatMovement rows) and the mutation
routines `update_balances` (app/utils/helpers.py), the transaction
create/update/delete handlers (app/api/routes/shops.py,
app/api/routes/transactions.py) and the float-movement handlers
(app/api/routes/shops.py, app/api/routes/float_movement.py).

Decimal (Numeric(15,2)) amounts are modelled as exact rationals (ℚ);
timestamps, authorization checks and free-text metadata fields are elided
since no claim depends on them.  Fallible handlers (those that can 404 or
dereference a missing balance row) return `Option DB`; `none` models the
aborted request with the database rolled back to the pre-call state.
-/

namespace MileApi

/-- app/models/enums.py: Category. -/
inductive Category
  | mobile
  | bank
deriving DecidableEq

/-- app/models/enums.py: TransactionType. -/
inductive TransactionType
  | deposit
  | withdrawal
  | airtime
  | bundle
  | electricity
  | water
  | tv
  | other_utility
  | bank_deposit
  | bank_withdrawal
  | bill_payment
  | funds_transfer
  | account_to_wallet
  | wallet_to_account
deriving DecidableEq

/-- app/models/enums.py: FloatOperationType. -/
inductive FloatOperationType
  | top_up
  | withdraw
deriving DecidableEq

/-- app/core/config.py line 28: WITHDRAWAL_TYPES. -/
def WITHDRAWAL_TYPES : List TransactionType :=
  [TransactionType.withdrawal, TransactionType.bank_withdrawal]

/-- Effect direction as published by the /types metadata endpoint. -/
inductive Effect
  | increment
  | decrement
  | none
deriving DecidableEq

/-- app/api/routes/transactions.py, get_transaction_types: the
"affects_float" column of the published classification table. -/
def affects_float : TransactionType → Effect
  | .deposit => .decrement
  | .withdrawal => .increment
  | .airtime => .decrement
  | .bundle => .decrement
  | .electricity => .decrement
  | .water => .decrement
  | .tv => .decrement
  | .other_utility => .decrement
  | .bank_deposit => .decrement
  | .bank_withdrawal => .increment
  | .bill_payment => .decrement
  | .funds_transfer => .decrement
  | .account_to_wallet => .decrement
  | .wallet_to_account => .increment

/-- app/api/routes/transactions.py, get_transaction_types: the
"affects_cash" column of the published classification table. -/
def affects_cash : TransactionType → Effect
  | .deposit => .increment
  | .withdrawal => .decrement
  | .airtime => .increment
  | .bundle => .increment
  | .electricity => .increment
  | .water => .increment
  | .tv => .increment
  | .other_utility => .increment
  | .bank_deposit => .increment
  | .bank_withdrawal => .decrement
  | .bill_payment => .increment
  | .funds_transfer => .increment
  | .account_to_wallet => .none
  | .wallet_to_account => .none

/-- Signed magnitude of an effect direction. -/
def Effect.signed : Effect → ℚ → ℚ
  | .increment, a => a
  | .decrement, a => -a
  | .none, _ => 0

/-- app/models/cash_balance.py: the CashBalance row of one shop. -/
structure CashRow where
  balance : ℚ
  opening_balance : ℚ
deriving DecidableEq

/-- app/models/transaction.py: a Transaction row (balance-relevant
fields; reference/customer_identifier/notes and timestamps elided). -/
structure Transaction where
  id : Nat
  shop_id : Nat
  provider_id : Nat
  category : Category
  type : TransactionType
  amount : ℚ
  commission : ℚ
deriving DecidableEq

/-- app/models/float.py: a FloatMovement row (balance-relevant fields). -/
structure FloatMovement where
  id : Nat
  shop_id : Nat
  provider_id : Nat
  type : FloatOperationType
  category : Category
  amount : ℚ
  is_new_capital : Bool
deriving DecidableEq

/-- The database state: FloatBalance rows keyed by
(shop_id, provider_id, category), CashBalance rows keyed by shop_id,
and the two ledgers.  `none` means the row is absent. -/
structure DB where
  floatBal : Nat → Nat → Category → Option ℚ
  cashBal : Nat → Option CashRow
  transactions : List Transaction
  movements : List FloatMovement

/-- The empty, freshly provisioned database. -/
def DB.empty : DB :=
  { floatBal := fun _ _ _ => Option.none
    cashBal := fun _ => Option.none
    transactions := []
    movements := [] }

/-- Write a FloatBalance row. -/
def DB.setFloat (s : DB) (shop provider : Nat) (cat : Category) (v : ℚ) : DB :=
  { s with floatBal := fun sh p c =>
      if sh = shop ∧ p = provider ∧ c = cat then some v else s.floatBal sh p c }

/-- Write a CashBalance row. -/
def DB.setCash (s : DB) (shop : Nat) (r : CashRow) : DB :=
  { s with cashBal := fun sh => if sh = shop then some r else s.cashBal sh }

/-- The float balance of a key, reading an absent row as zero. -/
def floatValue (s : DB) (shop provider : Nat) (cat : Category) : ℚ :=
  (s.floatBal shop provider cat).getD 0

/-- The cash balance of a shop, reading an absent row as zero. -/
def cashValue (s : DB) (shop : Nat) : ℚ :=
  ((s.cashBal shop).map CashRow.balance).getD 0

/-- The cash opening balance of a shop, reading an absent row as zero. -/
def openingValue (s : DB) (shop : Nat) : ℚ :=
  ((s.cashBal shop).map CashRow.opening_balance).getD 0

/-- The previous/current pairs returned by update_balances
(helpers.py lines 107-118); the reported change is current - previous. -/
structure BalanceReport where
  float_previous : ℚ
  float_current : ℚ
  cash_previous : ℚ
  cash_current : ℚ
deriving DecidableEq

/-- app/utils/helpers.py lines 74-118: update_balances.
Get-or-creates the FloatBalance row (balance 0) and the CashBalance row
(balance 0, opening_balance 0), then applies the operation:
"top_up" adds to float and, unless is_new_capital, subtracts from cash;
"withdraw" subtracts from float and adds to cash; any other operation
string changes neither balance. -/
def update_balances (s : DB) (shop_id provider_id : Nat) (category : Category)
    (amount : ℚ) (operation : String) (is_new_capital : Bool) :
    DB × BalanceReport :=
  let prev_float := (s.floatBal shop_id provider_id category).getD 0
  let cashRow := (s.cashBal shop_id).getD ⟨0, 0⟩
  let prev_cash := cashRow.balance
  let newFloat :=
    if operation = "top_up" then prev_float + amount
    else if operation = "withdraw" then prev_float - amount
    else prev_float
  let newCash :=
    if operation = "top_up" then
      if is_new_capital then prev_cash else prev_cash - amount
    else if operation = "withdraw" then prev_cash + amount
    else prev_cash
  let s' := (s.setFloat shop_id provider_id category newFloat).setCash shop_id
    ⟨newCash, cashRow.opening_balance⟩
  (s', ⟨prev_float, newFloat, prev_cash, newCash⟩)

/-- app/api/routes/shops.py lines 692-816: create_transaction.
Get-or-creates the FloatBalance row (balance 0) and the CashBalance row
(balance 0, opening at the column default 0), then dispatches on
membership in WITHDRAWAL_TYPES: withdrawal types add to float and
subtract from cash; every other type subtracts from float and adds to
cash.  Finally the Transaction row is persisted.  `commission` is stored
on the row but takes no part in the balance arithmetic. -/
def create_transaction (s : DB) (shop_id provider_id : Nat) (category : Category)
    (txn_type : TransactionType) (amount commission : ℚ) (tid : Nat) : DB :=
  let prev_float := (s.floatBal shop_id provider_id category).getD 0
  let cashRow := (s.cashBal shop_id).getD ⟨0, 0⟩
  let newFloat :=
    if txn_type ∈ WITHDRAWAL_TYPES then prev_float + amount else prev_float - amount
  let newCash :=
    if txn_type ∈ WITHDRAWAL_TYPES then cashRow.balance - amount
    else cashRow.balance + amount
  let s' := (s.setFloat shop_id provider_id category newFloat).setCash shop_id
    ⟨newCash, cashRow.opening_balance⟩
  { s' with transactions :=
      ⟨tid, shop_id, provider_id, category, txn_type, amount, commission⟩ ::
        s'.transactions }

/-- app/api/routes/transactions.py lines 21-111: update_transaction.
Finds the transaction (404 if absent, modelled as `none`); reads the
FloatBalance and CashBalance rows WITHOUT get-or-create — a missing row
is dereferenced and the request aborts (modelled as `none`).  Otherwise
it reverses the original effect with the original amount, applies the
new effect with the new amount under the same type, and stores the new
amount/commission on the row. -/
def update_transaction (s : DB) (transaction_id : Nat)
    (body_amount body_commission : Option ℚ) : Option DB :=
  match s.transactions.find? (fun t => t.id == transaction_id) with
  | Option.none => Option.none
  | some txn =>
    match s.floatBal txn.shop_id txn.provider_id txn.category,
        s.cashBal txn.shop_id with
    | some fb, some cb =>
      let revFloat :=
        if txn.type ∈ WITHDRAWAL_TYPES then fb - txn.amount else fb + txn.amount
      let revCash :=
        if txn.type ∈ WITHDRAWAL_TYPES then cb.balance + txn.amount
        else cb.balance - txn.amount
      let new_amount := body_amount.getD txn.amount
      let new_commission := body_commission.getD txn.commission
      let newFloat :=
        if txn.type ∈ WITHDRAWAL_TYPES then revFloat + new_amount
        else revFloat - new_amount
      let newCash :=
        if txn.type ∈ WITHDRAWAL_TYPES then revCash - new_amount
        else revCash + new_amount
      let s' := (s.setFloat txn.shop_id txn.provider_id txn.category
          newFloat).setCash txn.shop_id ⟨newCash, cb.opening_balance⟩
      some { s' with transactions := s'.transactions.map (fun t =>
          if t.id == transaction_id then
            { t with amount := new_amount, commission := new_commission }
          else t) }
    | _, _ => Option.none

/-- app/api/routes/transactions.py lines 113-151: delete_transaction.
Finds the transaction (404 as `none`); reads the balance rows without
get-or-create (missing row dereference modelled as `none`); reverses the
effect with the stored amount/type and removes the row. -/
def delete_transaction (s : DB) (transaction_id : Nat) : Option DB :=
  match s.transactions.find? (fun t => t.id == transaction_id) with
  | Option.none => Option.none
  | some txn =>
    match s.floatBal txn.shop_id txn.provider_id txn.category,
        s.cashBal txn.shop_id with
    | some fb, some cb =>
      let newFloat :=
        if txn.type ∈ WITHDRAWAL_TYPES then fb - txn.amount else fb + txn.amount
      let newCash :=
        if txn.type ∈ WITHDRAWAL_TYPES then cb.balance + txn.amount
        else cb.balance - txn.amount
      let s' := (s.setFloat txn.shop_id txn.provider_id txn.category
          newFloat).setCash txn.shop_id ⟨newCash, cb.opening_balance⟩
      some { s' with transactions :=
          s'.transactions.eraseP (fun t => t.id == transaction_id) }
    | _, _ => Option.none

/-- app/api/routes/shops.py lines 933-974: create_float_topup.
Persists the FloatMovement row, then applies update_balances with
operation "top_up" and the movement's is_new_capital flag. -/
def create_float_topup (s : DB) (shop_id provider_id : Nat) (category : Category)
    (amount : ℚ) (is_new_capital : Bool) (mid : Nat) : DB :=
  let s₁ := { s with movements :=
      ⟨mid, shop_id, provider_id, FloatOperationType.top_up, category, amount,
        is_new_capital⟩ :: s.movements }
  (update_balances s₁ shop_id provider_id category amount "top_up"
    is_new_capital).1

/-- app/api/routes/shops.py lines 976-1014: create_float_withdraw.
Persists the FloatMovement row (is_new_capital at the column default
false), then applies update_balances with operation "withdraw". -/
def create_float_withdraw (s : DB) (shop_id provider_id : Nat)
    (category : Category) (amount : ℚ) (mid : Nat) : DB :=
  let s₁ := { s with movements :=
      ⟨mid, shop_id, provider_id, FloatOperationType.withdraw, category, amount,
        false⟩ :: s.movements }
  (update_balances s₁ shop_id provider_id category amount "withdraw" false).1

/-- app/api/routes/float_movement.py lines 29-33 together with the
db.commit() inside update_balances (helpers.py line 103): the durable
state after the reversal step of update_float_movement has committed but
before the new values and the reapplication are processed.  A top_up
movement is reversed with operation "withdraw" (no is_new_capital
argument); a withdraw movement is reversed with operation "top_up"
carrying the stored flag. -/
def update_float_movement_after_reversal (s : DB) (movement_id : Nat) :
    Option DB :=
  match s.movements.find? (fun m => m.id == movement_id) with
  | Option.none => Option.none
  | some m =>
    if m.type = FloatOperationType.top_up then
      some (update_balances s m.shop_id m.provider_id m.category m.amount
        "withdraw" false).1
    else
      some (update_balances s m.shop_id m.provider_id m.category m.amount
        "top_up" m.is_new_capital).1

/-- app/api/routes/float_movement.py lines 15-60: update_float_movement.
After the committed reversal, the movement's amount is updated
(body.get("amount", movement.amount)) and the new effect is applied
under the original type, passing is_new_capital only on the top_up
reapplication. -/
def update_float_movement (s : DB) (movement_id : Nat)
    (body_amount : Option ℚ) : Option DB :=
  match s.movements.find? (fun m => m.id == movement_id) with
  | Option.none => Option.none
  | some m =>
    match update_float_movement_after_reversal s movement_id with
    | Option.none => Option.none
    | some s₁ =>
      let new_amount := body_amount.getD m.amount
      let s₂ := { s₁ with movements := s₁.movements.map (fun x =>
          if x.id == movement_id then { x with amount := new_amount } else x) }
      if m.type = FloatOperationType.top_up then
        some (update_balances s₂ m.shop_id m.provider_id m.category new_amount
          "top_up" m.is_new_capital).1
      else
        some (update_balances s₂ m.shop_id m.provider_id m.category new_amount
          "withdraw" false).1

/-- app/api/routes/float_movement.py lines 62-83: delete_float_movement.
Reverses the effect — a top_up with operation "withdraw", a withdraw
with operation "top_up", in both cases WITHOUT passing is_new_capital
(so the default false is used) — then removes the row. -/
def delete_float_movement (s : DB) (movement_id : Nat) : Option DB :=
  match s.movements.find? (fun m => m.id == movement_id) with
  | Option.none => Option.none
  | some m =>
    let s₁ :=
      if m.type = FloatOperationType.top_up then
        (update_balances s m.shop_id m.provider_id m.category m.amount
          "withdraw" false).1
      else
        (update_balances s m.shop_id m.provider_id m.category m.amount
          "top_up" false).1
    some { s₁ with movements := s₁.movements.eraseP (fun x => x.id == movement_id) }

/-- Signed cash effect of a Transaction row per the published
classification table. -/
def txnCashEffect (t : Transaction) : ℚ :=
  (affects_cash t.type).signed t.amount

/-- Signed float effect of a Transaction row per the published
classification table. -/
def txnFloatEffect (t : Transaction) : ℚ :=
  (affects_float t.type).signed t.amount

/-- Signed cash effect of a FloatMovement row per the classification
table: top_up decrements cash unless is_new_capital; withdraw
increments cash. -/
def mvCashEffect (m : FloatMovement) : ℚ :=
  match m.type with
  | .top_up => if m.is_new_capital then 0 else -m.amount
  | .withdraw => m.amount

/-- Signed float effect of a FloatMovement row per the classification
table: top_up increments float; withdraw decrements float. -/
def mvFloatEffect (m : FloatMovement) : ℚ :=
  match m.type with
  | .top_up => m.amount
  | .withdraw => -m.amount

/-- Sum of the table cash effects of the non-deleted ledger rows of a
shop. -/
def cashEffectSum (s : DB) (shop : Nat) : ℚ :=
  ((s.transactions.filter (fun t => t.shop_id == shop)).map txnCashEffect).sum +
    ((s.movements.filter (fun m => m.shop_id == shop)).map mvCashEffect).sum

/-! ### Read-after-write lemmas for the Balance Store -/

theorem setFloat_read (s : DB) (sh p : Nat) (c : Category) (v : ℚ) :
    (s.setFloat sh p c v).floatBal sh p c = some v := by
  simp [DB.setFloat]

theorem setCash_floatBal (s : DB) (sh : Nat) (r : CashRow) :
    (s.setCash sh r).floatBal = s.floatBal := rfl

theorem setFloat_cashBal (s : DB) (sh p : Nat) (c : Category) (v : ℚ) :
    (s.setFloat sh p c v).cashBal = s.cashBal := rfl

theorem setCash_read (s : DB) (sh : Nat) (r : CashRow) :
    (s.setCash sh r).cashBal sh = some r := by
  simp [DB.setCash]

theorem cashValue_eq_getD (s : DB) (sh : Nat) :
    cashValue s sh = ((s.cashBal sh).getD ⟨0, 0⟩).balance := by
  cases h : s.cashBal sh <;> simp [cashValue, h]

theorem openingValue_eq_getD (s : DB) (sh : Nat) :
    openingValue s sh = ((s.cashBal sh).getD ⟨0, 0⟩).opening_balance := by
  cases h : s.cashBal sh <;> simp [openingValue, h]

/-- The float balance read after update_balances, as a function of the
operation string. -/
theorem update_balances_floatValue (s : DB) (sh p : Nat) (c : Category)
    (a : ℚ) (op : String) (flag : Bool) :
    floatValue (update_balances s sh p c a op flag).1 sh p c =
      if op = "top_up" then floatValue s sh p c + a
      else if op = "withdraw" then floatValue s sh p c - a
      else floatValue s sh p c := by
  simp only [update_balances, floatValue, setCash_floatBal]
  rw [setFloat_read]
  rfl

/-- The cash balance read after update_balances, as a function of the
operation string and the is_new_capital flag. -/
theorem update_balances_cashValue (s : DB) (sh p : Nat) (c : Category)
    (a : ℚ) (op : String) (flag : Bool) :
    cashValue (update_balances s sh p c a op flag).1 sh =
      if op = "top_up" then
        if flag then cashValue s sh else cashValue s sh - a
      else if op = "withdraw" then cashValue s sh + a
      else cashValue s sh := by
  simp only [update_balances]
  rw [cashValue_eq_getD, setCash_read]
  simp [cashValue_eq_getD]

/-- update_balances preserves the cash opening balance (zero when the
row is created). -/
theorem update_balances_openingValue (s : DB) (sh p : Nat) (c : Category)
    (a : ℚ) (op : String) (flag : Bool) :
    openingValue (update_balances s sh p c a op flag).1 sh = openingValue s sh := by
  simp only [update_balances]
  rw [openingValue_eq_getD, setCash_read]
  simp [openingValue_eq_getD]

/-! ### Claims -/

/-- Claim C3: the Balance Mutator contract of update_balances — for a
non-negative amount, operation "top_up" adds the amount to the float
balance and subtracts it from the cash balance unless is_new_capital is
true (cash unchanged); operation "withdraw" subtracts the amount from
the float balance and adds it to the cash balance. -/
theorem c3_update_balances_contract (s : DB) (sh p : Nat) (c : Category)
    (a : ℚ) (flag : Bool) (h : 0 ≤ a) :
    (floatValue (update_balances s sh p c a "top_up" flag).1 sh p c
        = floatValue s sh p c + a
      ∧ cashValue (update_balances s sh p c a "top_up" flag).1 sh
        = (if flag then cashValue s sh else cashValue s sh - a))
    ∧ (floatValue (update_balances s sh p c a "withdraw" flag).1 sh p c
        = floatValue s sh p c - a
      ∧ cashValue (update_balances s sh p c a "withdraw" flag).1 sh
        = cashValue s sh + a) := by
  have hne : ("withdraw" : String) ≠ "top_up" := by decide
  rw [update_balances_floatValue, update_balances_cashValue,
    update_balances_floatValue, update_balances_cashValue]
  norm_num [hne]

/-- Witness for c3_update_balances_contract at a concrete input. -/
theorem c3_update_balances_contract_witness :
    (floatValue (update_balances DB.empty 1 2 Category.mobile 7 "top_up" false).1
        1 2 Category.mobile
      = floatValue DB.empty 1 2 Category.mobile + 7
      ∧ cashValue (update_balances DB.empty 1 2 Category.mobile 7 "top_up" false).1 1
        = (if false then cashValue DB.empty 1 else cashValue DB.empty 1 - 7))
    ∧ (floatValue (update_balances DB.empty 1 2 Category.mobile 7 "withdraw" false).1
        1 2 Category.mobile
      = floatValue DB.empty 1 2 Category.mobile - 7
      ∧ cashValue (update_balances DB.empty 1 2 Category.mobile 7 "withdraw" false).1 1
        = cashValue DB.empty 1 + 7) :=
  c3_update_balances_contract DB.empty 1 2 Category.mobile 7 false (by norm_num)

/-- Claim C4: reversal symmetry of the Balance Mutator — applying
update_balances with ("top_up", amount, is_new_capital = false) and then
("withdraw", amount) on the same key returns both the float balance and
the cash balance exactly to their values before the two calls. -/
theorem c4_reversal_symmetry (s : DB) (sh p : Nat) (c : Category) (a : ℚ) :
    floatValue (update_balances
        (update_balances s sh p c a "top_up" false).1
        sh p c a "withdraw" false).1 sh p c = floatValue s sh p c
    ∧ cashValue (update_balances
        (update_balances s sh p c a "top_up" false).1
        sh p c a "withdraw" false).1 sh = cashValue s sh := by
  have hne : ("withdraw" : String) ≠ "top_up" := by decide
  rw [update_balances_floatValue, update_balances_floatValue,
    update_balances_cashValue, update_balances_cashValue]
  norm_num [hne]

/-- A fresh shop whose only ledger row is an account_to_wallet
transaction of amount 50 (shop 1, provider 2, category bank). -/
def a2wState : DB :=
  create_transaction DB.empty 1 2 Category.bank
    TransactionType.account_to_wallet 50 0 10

/-- Claim C1: the balance-sum invariant fails on the code.  After the
single reachable operation "create an account_to_wallet transaction of
amount 50" from the freshly provisioned state, the CashBalance is 50,
while opening_balance plus the sum of the classification-table cash
effects of all existing rows is 0: the invariant does not hold. -/
theorem c1_balance_sum_invariant_fails :
    cashValue a2wState 1 = 50
    ∧ openingValue a2wState 1 + cashEffectSum a2wState 1 = 0
    ∧ cashValue a2wState 1 ≠ openingValue a2wState 1 + cashEffectSum a2wState 1 := by
  refine ⟨?_, ?_, ?_⟩ <;>
    norm_num [a2wState, cashValue, openingValue, cashEffectSum, create_transaction,
      DB.empty, DB.setCash, DB.setFloat, WITHDRAWAL_TYPES, txnCashEffect,
      mvCashEffect, affects_cash, Effect.signed, List.filter] <;> decide

/-- Claim C2: creating an account_to_wallet transaction of amount 50
does decrement the float balance by 50, but it also increments the cash
balance by 50, although the classification table published by the /types
endpoint declares its cash effect "none"; the claimed cash change of 0
is contradicted by the code. -/
theorem c2_account_to_wallet_cash_not_none :
    floatValue a2wState 1 2 Category.bank = -50
    ∧ cashValue a2wState 1 = 50
    ∧ affects_cash TransactionType.account_to_wallet = Effect.none
    ∧ cashValue a2wState 1 ≠ cashValue DB.empty 1 := by
  refine ⟨?_, ?_, rfl, ?_⟩ <;>
    norm_num [a2wState, cashValue, floatValue, create_transaction, DB.empty,
      DB.setCash, DB.setFloat, WITHDRAWAL_TYPES] <;> decide

/-- A fresh shop with a single capital float top-up of amount 100
(shop 1, provider 2, category mobile, is_new_capital true, id 20):
float balance 100, cash balance 0. -/
def capitalTopupState : DB :=
  create_float_topup DB.empty 1 2 Category.mobile 100 true 20

/-- Claim C5: reversal does not honor the stored is_new_capital flag.
On the state holding one capital top-up of 100 (cash balance 0), the
code reverses a top_up with operation "withdraw", which unconditionally
increments cash: deleting the movement leaves cash at 100 instead of 0,
and updating its amount to the same value 100 also leaves cash at 100 —
the net cash change of the reverse-plus-reapply is +100, not 0. -/
theorem c5_capital_topup_reversal_increments_cash :
    cashValue capitalTopupState 1 = 0
    ∧ (delete_float_movement capitalTopupState 20).map (fun t => cashValue t 1)
      = some 100
    ∧ (update_float_movement capitalTopupState 20 (some 100)).map
        (fun t => cashValue t 1) = some 100 := by
  refine ⟨?_, ?_, ?_⟩ <;>
    norm_num [capitalTopupState, create_float_topup, delete_float_movement,
      update_float_movement, update_float_movement_after_reversal,
      update_balances, cashValue, DB.empty, DB.setCash, DB.setFloat,
      List.find?] <;> decide

/-- A fresh shop with a single non-capital float top-up of amount 100
(shop 1, provider 2, category mobile, id 30): float 100, cash -100. -/
def plainTopupState : DB :=
  create_float_topup DB.empty 1 2 Category.mobile 100 false 30

/-- Claim C6: the reverse-then-reapply sequence is not all-or-nothing.
update_balances commits internally (helpers.py line 103), so after the
reversal step of update_float_movement the reversed balances are already
durable: on the state holding one non-capital top-up of 100 (cash -100),
the committed state after the reversal has cash 0.  A failure at that
point leaves the Balance Store at cash 0, not at the pre-call value
-100, so the reversal is not rolled back. -/
theorem c6_reversal_committed_before_reapply :
    cashValue plainTopupState 1 = -100
    ∧ (update_float_movement_after_reversal plainTopupState 30).map
        (fun t => cashValue t 1) = some 0
    ∧ (update_float_movement_after_reversal plainTopupState 30).map
        (fun t => cashValue t 1) ≠ some (cashValue plainTopupState 1) := by
  refine ⟨?_, ?_, ?_⟩ <;>
    norm_num [plainTopupState, create_float_topup,
      update_float_movement_after_reversal, update_balances, cashValue,
      DB.empty, DB.setCash, DB.setFloat, List.find?] <;> decide

/-- Claim C7, counterexample: create-then-delete is not a balance-state
no-op for every record.  Starting from the freshly provisioned state,
creating a capital float top-up of 100 and immediately deleting it
leaves the cash balance at 100, not at its original value 0: the delete
reverses the top_up with operation "withdraw", which increments cash
although the capital top-up never decremented it. -/
theorem c7_create_delete_not_noop :
    cashValue DB.empty 1 = 0
    ∧ (delete_float_movement
        (create_float_topup DB.empty 1 2 Category.mobile 100 true 21) 21).map
        (fun t => cashValue t 1) = some 100 := by
  refine ⟨rfl, ?_⟩
  norm_num [create_float_topup, delete_float_movement, update_balances,
    cashValue, DB.empty, DB.setCash, DB.setFloat, List.find?]
  decide

/-- Claim C7, amended: deleting a record immediately after creating it
returns the affected float and cash balances exactly to their prior
values for every Transaction (of any type) and for every FloatMovement
EXCEPT a top-up with is_new_capital true: the amended statement covers
transactions, non-capital top-ups and withdrawals. -/
theorem c7_delete_fully_reverses_amended (s : DB) (sh p tid mid : Nat)
    (cat : Category) (ty : TransactionType) (a c : ℚ) :
    ((delete_transaction (create_transaction s sh p cat ty a c tid) tid).map
        (fun t => (floatValue t sh p cat, cashValue t sh))
      = some (floatValue s sh p cat, cashValue s sh))
    ∧ ((delete_float_movement (create_float_topup s sh p cat a false mid) mid).map
        (fun t => (floatValue t sh p cat, cashValue t sh))
      = some (floatValue s sh p cat, cashValue s sh))
    ∧ ((delete_float_movement (create_float_withdraw s sh p cat a mid) mid).map
        (fun t => (floatValue t sh p cat, cashValue t sh))
      = some (floatValue s sh p cat, cashValue s sh)) := by
  refine ⟨?_, ?_, ?_⟩
  · simp only [create_transaction, delete_transaction]
    simp [List.find?, DB.setFloat, DB.setCash, floatValue, cashValue,
      cashValue_eq_getD]
    split <;> refine ⟨by ring, ?_⟩ <;> cases h2 : s.cashBal sh <;> simp [h2]
  · simp only [create_float_topup, delete_float_movement, update_balances]
    simp [List.find?, DB.setFloat, DB.setCash, floatValue, cashValue]
    cases h2 : s.cashBal sh <;> simp [h2]
  · simp only [create_float_withdraw, delete_float_movement, update_balances]
    simp [List.find?, DB.setFloat, DB.setCash, floatValue, cashValue]
    cases h2 : s.cashBal sh <;> simp [h2]

/-- Claim C8: updating a transaction's amount produces exactly the same
final float and cash balances as deleting the original transaction and
creating a fresh one with the new amount and the same type, category and
provider, whenever the transaction exists and its balance rows are
present (as they are after any creation). -/
theorem c8_update_equals_delete_plus_create (s : DB) (tid tid2 : Nat)
    (txn : Transaction) (na nc : ℚ) (fb : ℚ) (cb : CashRow)
    (hfind : s.transactions.find? (fun t => t.id == tid) = some txn)
    (hfb : s.floatBal txn.shop_id txn.provider_id txn.category = some fb)
    (hcb : s.cashBal txn.shop_id = some cb) :
    (update_transaction s tid (some na) (some nc)).map
        (fun t => (floatValue t txn.shop_id txn.provider_id txn.category,
          cashValue t txn.shop_id))
      = ((delete_transaction s tid).map (fun t =>
            create_transaction t txn.shop_id txn.provider_id txn.category
              txn.type na nc tid2)).map
          (fun t => (floatValue t txn.shop_id txn.provider_id txn.category,
            cashValue t txn.shop_id)) := by
  simp only [update_transaction, delete_transaction, create_transaction, hfind,
    hfb, hcb]
  simp [DB.setFloat, DB.setCash, floatValue, cashValue]

/-- A shop with a single deposit transaction of amount 100
(shop 1, provider 2, category mobile, id 40). -/
def c8State : DB :=
  create_transaction DB.empty 1 2 Category.mobile TransactionType.deposit
    100 0 40

/-- Witness for c8_update_equals_delete_plus_create: updating the
amount of the deposit from 100 to 150 agrees with delete-then-create. -/
theorem c8_update_equals_delete_plus_create_witness :
    (update_transaction c8State 40 (some 150) (some 0)).map
        (fun t => (floatValue t 1 2 Category.mobile, cashValue t 1))
      = ((delete_transaction c8State 40).map (fun t =>
            create_transaction t 1 2 Category.mobile TransactionType.deposit
              150 0 41)).map
          (fun t => (floatValue t 1 2 Category.mobile, cashValue t 1)) :=
  c8_update_equals_delete_plus_create c8State 40 41
    ⟨40, 1, 2, Category.mobile, TransactionType.deposit, 100, 0⟩ 150 0
    (0 - 100) ⟨0 + 100, 0⟩ rfl rfl rfl

/-- A shop whose ledger holds a deposit transaction but whose balance
rows are absent. -/
def c9BadState : DB :=
  { DB.empty with transactions :=
      [⟨1, 1, 2, Category.mobile, TransactionType.deposit, 100, 0⟩] }

/-- Claim C9, counterexample: not every balance lookup of a core
mutation follows get-or-create.  On a state whose ledger holds a
transaction but whose FloatBalance and CashBalance rows are absent,
update_transaction and delete_transaction dereference the missing rows
and fail instead of constructing them with zero balance. -/
theorem c9_lookup_without_create :
    c9BadState.transactions.find? (fun t => t.id == 1)
      = some ⟨1, 1, 2, Category.mobile, TransactionType.deposit, 100, 0⟩
    ∧ c9BadState.floatBal 1 2 Category.mobile = Option.none
    ∧ update_transaction c9BadState 1 (some 150) Option.none = Option.none
    ∧ delete_transaction c9BadState 1 = Option.none :=
  ⟨rfl, rfl, rfl, rfl⟩

/-- Claim C9, amended: the get-or-create policy holds for the lookups of
update_balances (used by every FloatMovement mutation) and of
create_transaction — when a balance row is absent it is constructed with
zero balance (and zero opening balance) before the effect is applied,
and both rows exist afterwards; the lookups of update_transaction and
delete_transaction instead assume the rows exist and abort on a missing
row. -/
theorem c9_get_or_create_amended (s : DB) (sh p tid : Nat) (cat : Category)
    (ty : TransactionType) (a c : ℚ) (op : String) (flag : Bool)
    (hf : s.floatBal sh p cat = Option.none)
    (hc : s.cashBal sh = Option.none) :
    ((update_balances s sh p cat a op flag).1.floatBal sh p cat).isSome
    ∧ ((update_balances s sh p cat a op flag).1.cashBal sh).isSome
    ∧ (update_balances s sh p cat a op flag).2.float_previous = 0
    ∧ (update_balances s sh p cat a op flag).2.cash_previous = 0
    ∧ openingValue (update_balances s sh p cat a op flag).1 sh = 0
    ∧ ((create_transaction s sh p cat ty a c tid).floatBal sh p cat).isSome
    ∧ ((create_transaction s sh p cat ty a c tid).cashBal sh).isSome
    ∧ floatValue (create_transaction s sh p cat ty a c tid) sh p cat
        = (if ty ∈ WITHDRAWAL_TYPES then (0 : ℚ) + a else 0 - a)
    ∧ cashValue (create_transaction s sh p cat ty a c tid) sh
        = (if ty ∈ WITHDRAWAL_TYPES then (0 : ℚ) - a else 0 + a) := by
  refine ⟨?_, ?_, ?_, ?_, ?_, ?_, ?_, ?_, ?_⟩ <;>
    simp [update_balances, create_transaction, DB.setFloat, DB.setCash, hf, hc,
      floatValue, cashValue, openingValue]

/-- Witness for c9_get_or_create_amended on the freshly provisioned
state, whose rows are all absent. -/
theorem c9_get_or_create_amended_witness :
    ((update_balances DB.empty 1 2 Category.mobile 5 "top_up" false).1.floatBal
        1 2 Category.mobile).isSome
    ∧ ((update_balances DB.empty 1 2 Category.mobile 5 "top_up"
        false).1.cashBal 1).isSome
    ∧ (update_balances DB.empty 1 2 Category.mobile 5 "top_up"
        false).2.float_previous = 0
    ∧ (update_balances DB.empty 1 2 Category.mobile 5 "top_up"
        false).2.cash_previous = 0
    ∧ openingValue (update_balances DB.empty 1 2 Category.mobile 5 "top_up"
        false).1 1 = 0
    ∧ ((create_transaction DB.empty 1 2 Category.mobile
        TransactionType.deposit 5 0 7).floatBal 1 2 Category.mobile).isSome
    ∧ ((create_transaction DB.empty 1 2 Category.mobile
        TransactionType.deposit 5 0 7).cashBal 1).isSome
    ∧ floatValue (create_transaction DB.empty 1 2 Category.mobile
        TransactionType.deposit 5 0 7) 1 2 Category.mobile
        = (if TransactionType.deposit ∈ WITHDRAWAL_TYPES then (0 : ℚ) + 5
          else 0 - 5)
    ∧ cashValue (create_transaction DB.empty 1 2 Category.mobile
        TransactionType.deposit 5 0 7) 1
        = (if TransactionType.deposit ∈ WITHDRAWAL_TYPES then (0 : ℚ) - 5
          else 0 + 5) :=
  c9_get_or_create_amended DB.empty 1 2 7 Category.mobile
    TransactionType.deposit 5 0 "top_up" false rfl rfl

/-- Claim C10: commission is balance-neutral.  Two creates differing
only in commission produce identical FloatBalance and CashBalance
stores, and an update that supplies no new amount (so only the
commission changes) leaves the float and cash balances of the
transaction's keys exactly unchanged. -/
theorem c10_commission_balance_neutral (s : DB) (sh p tid : Nat)
    (cat : Category) (ty : TransactionType) (a c₁ c₂ nc : ℚ)
    (txn : Transaction) (fb : ℚ) (cb : CashRow)
    (hfind : s.transactions.find? (fun t => t.id == tid) = some txn)
    (hfb : s.floatBal txn.shop_id txn.provider_id txn.category = some fb)
    (hcb : s.cashBal txn.shop_id = some cb) :
    ((create_transaction s sh p cat ty a c₁ tid).floatBal
        = (create_transaction s sh p cat ty a c₂ tid).floatBal
      ∧ (create_transaction s sh p cat ty a c₁ tid).cashBal
        = (create_transaction s sh p cat ty a c₂ tid).cashBal)
    ∧ (update_transaction s tid Option.none (some nc)).map
        (fun t => (floatValue t txn.shop_id txn.provider_id txn.category,
          cashValue t txn.shop_id))
      = some (floatValue s txn.shop_id txn.provider_id txn.category,
          cashValue s txn.shop_id) := by
  refine ⟨⟨rfl, rfl⟩, ?_⟩
  simp only [update_transaction, hfind, hfb, hcb]
  simp [DB.setFloat, DB.setCash, floatValue, cashValue, hfb, hcb]
  constructor <;> split <;> ring

/-- Witness for c10_commission_balance_neutral: a commission-only update
of the deposit transaction of c8State leaves both balances unchanged. -/
theorem c10_commission_balance_neutral_witness :
    ((create_transaction c8State 1 2 Category.mobile TransactionType.deposit
        20 3 42).floatBal
      = (create_transaction c8State 1 2 Category.mobile
          TransactionType.deposit 20 9 42).floatBal
      ∧ (create_transaction c8State 1 2 Category.mobile
          TransactionType.deposit 20 3 42).cashBal
        = (create_transaction c8State 1 2 Category.mobile
            TransactionType.deposit 20 9 42).cashBal)
    ∧ (update_transaction c8State 40 Option.none (some 7)).map
        (fun t => (floatValue t 1 2 Category.mobile, cashValue t 1))
      = some (floatValue c8State 1 2 Category.mobile, cashValue c8State 1) :=
  c10_commission_balance_neutral c8State 1 2 40 Category.mobile
    TransactionType.deposit 20 3 9 7
    ⟨40, 1, 2, Category.mobile, TransactionType.deposit, 100, 0⟩
    (0 - 100) ⟨0 + 100, 0⟩ rfl rfl rfl

end MileApi
